import Mathlib

/-!
Shallow embedding of the kotah-api authentication core
(`src/controllers/auth.controller.ts`, `src/plugins/jwt.ts`) and of the
Credential Store primitives it composes.  Timestamps are milliseconds as
`Nat`; `Date.now()`, `Math.random`-generated codes and `randomUUID` jtis
are explicit parameters of each operation.  Fallible store calls return
`Except`; a Fastify handler's outcome is an `HttpResult` where `thrown`
stands for an exception escaping the handler (surfaced by Fastify's
default error handler as a generic 500, distinct from the
`reply.unauthorized`/`reply.badRequest` replies the handler produces
itself).
-/

namespace Kotah

/-- One `Otp` row (`prisma.otp`): target, 6-digit code, purpose,
absolute expiry, nullable consumption timestamp, creation timestamp. -/
structure OtpRow where
  id : Nat
  target : String
  code : String
  purpose : String
  expiresAt : Nat
  consumedAt : Option Nat
  createdAt : Nat
deriving Repr, DecidableEq

/-- Gender enum from the zod schema `z.enum(["male","female","other"])`. -/
inductive Gender where
  | male
  | female
  | other
deriving Repr, DecidableEq

/-- One `User` row: email/phone optional identity anchors, optional
passwordHash (absent for OTP-only accounts), optional profile fields. -/
structure UserRow where
  id : Nat
  email : Option String
  phone : Option String
  passwordHash : Option String
  name : Option String
  gender : Option Gender
  birthDate : Option Nat
  avatarUrl : Option String
  countryCode : Option String
deriving Repr, DecidableEq

/-- One `Session` row: owner, unique refresh-token id ("jti"), expiry. -/
structure SessionRow where
  userId : Nat
  refreshJti : Nat
  expiresAt : Nat
deriving Repr, DecidableEq

/-- Role enum from `z.enum(["OWNER","SPOUSE","SON","DAUGHTER","GUARDIAN","OTHER"])`. -/
inductive FamilyRole where
  | OWNER
  | SPOUSE
  | SON
  | DAUGHTER
  | GUARDIAN
  | OTHER
deriving Repr, DecidableEq

/-- One `Family` row. -/
structure FamilyRow where
  id : Nat
  name : String
  ownerId : Nat
deriving Repr, DecidableEq

/-- One `FamilyMember` row. -/
structure FamilyMemberRow where
  userId : Nat
  familyId : Nat
  role : FamilyRole
deriving Repr, DecidableEq

/-- One `Location` row (child of a Family).  `lat`/`lng` are only stored,
never computed with, so they are embedded as integers. -/
structure LocationRow where
  familyId : Nat
  label : String
  address : Option String
  lat : Option Int
  lng : Option Int
deriving Repr, DecidableEq

/-- The Credential Store state: the six Prisma tables the auth core touches. -/
structure Store where
  otps : List OtpRow
  users : List UserRow
  sessions : List SessionRow
  families : List FamilyRow
  members : List FamilyMemberRow
  locations : List LocationRow
deriving Repr, DecidableEq

/-- Errors raised by store primitives (Prisma exceptions). -/
inductive StoreError where
  | recordNotFound
  | uniqueViolation
  | fkViolation
deriving Repr, DecidableEq

/-- Process configuration: the two signing secrets
(`JWT_ACCESS_SECRET`, `JWT_REFRESH_SECRET`). -/
structure AuthConfig where
  accessSecret : String
  refreshSecret : String
deriving Repr, DecidableEq

/-- A signed JWT, embedded as its payload (subject, optional jti, absolute
expiry in ms) plus the secret it was signed with; `jwtVerify` accepts it
exactly when the secrets coincide and it is not yet expired, which is the
behaviour of `jsonwebtoken`'s sign/verify pair for well-formed tokens. -/
structure JwtToken where
  sub : Nat
  jti : Option Nat
  expMs : Nat
  secret : String
deriving Repr, DecidableEq

inductive JwtError where
  | badSignature
  | expired
deriving Repr, DecidableEq

/-- Access tokens live 15 minutes (`expiresIn: "15m"`). -/
def accessTtlMs : Nat := 15 * 60 * 1000

/-- Refresh tokens live 30 days (`expiresIn: "30d"` and
`new Date(Date.now() + 30*24*60*60*1000)`). -/
def refreshTtlMs : Nat := 30 * 24 * 60 * 60 * 1000

/-- The `signAccess` decorator (jwt.ts): sign the payload with the access secret,
15-minute expiry. -/
def signAccess (cfg : AuthConfig) (sub now : Nat) : JwtToken :=
  { sub := sub, jti := none, expMs := now + accessTtlMs, secret := cfg.accessSecret }

/-- Return shape of `signRefresh`: the token plus the jti and absolute
expiry, for the caller to persist a Session row. -/
structure RefreshSigned where
  token : JwtToken
  jti : Nat
  exp : Nat
deriving Repr, DecidableEq

/-- The `signRefresh` decorator (jwt.ts): embed a fresh jti in the payload, sign with the
refresh secret, 30-day expiry. -/
def signRefresh (cfg : AuthConfig) (sub jti now : Nat) : RefreshSigned :=
  { token := { sub := sub, jti := some jti, expMs := now + refreshTtlMs, secret := cfg.refreshSecret }
    jti := jti
    exp := now + refreshTtlMs }

/-- Behaviour of `jwt.verify(token, secret)`: fails on a wrong secret (bad signature)
or on expiry, otherwise yields the payload. -/
def jwtVerify (tok : JwtToken) (secret : String) (now : Nat) : Except JwtError JwtToken :=
  if tok.secret ≠ secret then .error .badSignature
  else if tok.expMs ≤ now then .error .expired
  else .ok tok

/-- The `verifyAccess` decorator (jwt.ts): verify against the access secret. -/
def verifyAccess (cfg : AuthConfig) (tok : JwtToken) (now : Nat) : Except JwtError JwtToken :=
  jwtVerify tok cfg.accessSecret now

/-- Outcome of a Fastify handler.  `thrown` is an exception that escapes
the handler (no catch in the source): Fastify's default error handler
turns it into a generic 500 response, which is a different reply from the
handler's own `badRequest` (400) and `unauthorized` (401) replies. -/
inductive HttpResult (α : Type) where
  | ok : α → HttpResult α
  | badRequest : String → HttpResult α
  | unauthorized : String → HttpResult α
  | internalServerError : String → HttpResult α
  | thrown : String → HttpResult α
deriving Repr, DecidableEq

def HttpResult.isOk {α : Type} : HttpResult α → Bool
  | .ok _ => true
  | _ => false

/-! ### Store primitives used by the handlers -/

/-- Row predicate of the `otp.findFirst` lookup in `verifyOtp`:
`where: { target, code, consumedAt: null, expiresAt: { gt: new Date() } }`. -/
def otpMatches (target code : String) (now : Nat) (o : OtpRow) : Bool :=
  decide (o.target = target ∧ o.code = code ∧ o.consumedAt = none ∧ now < o.expiresAt)

/-- Combined `orderBy: { createdAt: "desc" }` + `findFirst`: pick the row with the
greatest `createdAt` among the candidates. -/
def latestCreated : List OtpRow → Option OtpRow
  | [] => none
  | o :: rest =>
    match latestCreated rest with
    | none => some o
    | some b => if o.createdAt < b.createdAt then some b else some o

/-- The `otp.findFirst` call of `verifyOtp`. -/
def findFirstOtp (s : Store) (target code : String) (now : Nat) : Option OtpRow :=
  latestCreated (s.otps.filter (otpMatches target code now))

/-- Effect of the consume write on one row: rows with the targeted id get
`consumedAt` set to the write time, all others are untouched. -/
def consumePatch (otpId now : Nat) (o : OtpRow) : OtpRow :=
  if o.id = otpId then { o with consumedAt := some now } else o

/-- The `otp.update({ where: { id: otp.id }, data: { consumedAt: new Date() } })`
call of `verifyOtp`: the `where` clause names only the id, so the write is
keyed solely by id — it fails only when no row has that id, and it sets
`consumedAt` regardless of the value already stored there. -/
def otpUpdateConsumed (s : Store) (otpId now : Nat) : Except StoreError Store :=
  if s.otps.any (fun o => decide (o.id = otpId)) then
    .ok { s with otps := s.otps.map (consumePatch otpId now) }
  else .error .recordNotFound

/-- The `user.findFirst({ where: { OR: [{ email: target }, { phone: target }] } })`
call of `verifyOtp`. -/
def findUserByTarget (s : Store) (target : String) : Option UserRow :=
  s.users.find? (fun u => decide (u.email = some target ∨ u.phone = some target))

/-- Does an existing row collide with the email/phone a create wants to insert? -/
def conflictsWith (email phone : Option String) (u : UserRow) : Bool :=
  decide ((email ≠ none ∧ u.email = email) ∨ (phone ≠ none ∧ u.phone = phone))

/-- Modelled from the spec: the Credential Store (the Prisma schema in
`generated/prisma`, not under `src/`) enforces uniqueness of `User.email`
and `User.phone`; `user.create` raises a uniqueness-conflict error when a
stored row already carries the same non-null email or phone (§3, §5(b)). -/
def userCreate (s : Store) (freshId : Nat) (email phone uname : Option String) :
    Except StoreError (Store × UserRow) :=
  if s.users.any (conflictsWith email phone) then
    .error .uniqueViolation
  else
    let u : UserRow :=
      { id := freshId, email := email, phone := phone, passwordHash := none,
        name := uname, gender := none, birthDate := none, avatarUrl := none,
        countryCode := none }
    .ok ({ s with users := s.users ++ [u] }, u)

/-- The `session.create({ data: { userId, refreshJti, expiresAt } })` call. -/
def sessionCreate (s : Store) (userId jti expiresAt : Nat) : Store :=
  { s with sessions := s.sessions ++ [⟨userId, jti, expiresAt⟩] }

/-- The `session.findUnique({ where: { refreshJti: payload.jti } })` call. -/
def sessionLookup (s : Store) (jti : Option Nat) : Option SessionRow :=
  s.sessions.find? (fun ss => decide (some ss.refreshJti = jti))

/-! ### Handlers (auth.controller.ts) -/

/-- The row `sendOtp` inserts: `expiresAt = now + ttl minutes`, not yet
consumed, created now. -/
def freshOtp (freshId now ttlMinutes : Nat) (code target purpose : String) : OtpRow :=
  { id := freshId, target := target, code := code, purpose := purpose,
    expiresAt := now + ttlMinutes * 60 * 1000, consumedAt := none,
    createdAt := now }

/-- Handler `sendOtp`: computes `expiresAt = now + ttl minutes`, inserts a fresh
OtpChallenge row, replies `{ ok, ttlMinutes }`.  The random 6-digit code
and the fresh row id are explicit inputs. -/
def sendOtp (s : Store) (now freshId : Nat) (code : String) (ttlMinutes : Nat)
    (target purpose : String) : Store × HttpResult Nat :=
  ({ s with otps := s.otps ++ [freshOtp freshId now ttlMinutes code target purpose] },
   .ok ttlMinutes)

/-- Success body of `verifyOtp`: `{ access, refresh, user }` — the `user`
field is the full stored row, exactly as fetched/created. -/
structure AuthTokens where
  access : JwtToken
  refresh : JwtToken
  user : UserRow
deriving Repr, DecidableEq

/-- Test `target.includes("@")`: does the target carry the email marker? -/
def targetIsEmail (target : String) : Bool :=
  target.data.any (fun c => c = '@')

/-- Email column value `verifyOtp` passes to `user.create`:
`target.includes("@") ? { email: target, ... } : ...`. -/
def emailOfTarget (target : String) : Option String :=
  if targetIsEmail target then some target else none

/-- Phone column value `verifyOtp` passes to `user.create`. -/
def phoneOfTarget (target : String) : Option String :=
  if targetIsEmail target then none else some target

/-- Handler `verifyOtp`, with an explicit interference point: `interfere` is the
store mutation committed by concurrent requests in the window between the
`user.findFirst` and the `user.create` (the duplicate-signup race window);
the sequential handler is this applied to `interfere = id`.
Steps, exactly as in the source: find the newest live matching challenge
(else 400 "Invalid or expired code"); update its `consumedAt` keyed by id;
find the user by email-or-phone = target, else create one (no catch around
the create: a store error there escapes the handler); sign access+refresh,
persist a Session, reply `{ access, refresh, user }`. -/
def verifyOtpWith (cfg : AuthConfig) (s : Store) (now freshUserId jti : Nat)
    (target code : String) (profileName : Option String)
    (interfere : Store → Store) : Store × HttpResult AuthTokens :=
  match findFirstOtp s target code now with
  | none => (s, .badRequest "Invalid or expired code")
  | some otp =>
    match otpUpdateConsumed s otp.id now with
    | .error _ => (s, .thrown "Record to update not found")
    | .ok s1 =>
      let finish : Store → UserRow → Store × HttpResult AuthTokens := fun s2 user =>
        let access := signAccess cfg user.id now
        let r := signRefresh cfg user.id jti now
        (sessionCreate s2 user.id r.jti r.exp,
         .ok { access := access, refresh := r.token, user := user })
      match findUserByTarget s1 target with
      | some user => finish s1 user
      | none =>
        let s1i := interfere s1
        match userCreate s1i freshUserId (emailOfTarget target) (phoneOfTarget target)
            profileName with
        | .error _ => (s1i, .thrown "Unique constraint failed")
        | .ok (s2, user) => finish s2 user

/-- The sequential `verifyOtp` handler. -/
def verifyOtp (cfg : AuthConfig) (s : Store) (now freshUserId jti : Nat)
    (target code : String) (profileName : Option String) :
    Store × HttpResult AuthTokens :=
  verifyOtpWith cfg s now freshUserId jti target code profileName id

/-- Handler `refresh`: missing body token → 400; `jwt.verify` with the refresh
secret is NOT wrapped in try/catch, so a verification failure escapes the
handler as a thrown error; then `session.findUnique` by the payload's jti —
no row or `session.expiresAt < now` → 401 "Invalid session"; else reply a
fresh access token for the same subject.  The store is never written. -/
def refreshAccess (cfg : AuthConfig) (s : Store) (now : Nat) (tok : Option JwtToken) :
    Store × HttpResult JwtToken :=
  match tok with
  | none => (s, .badRequest "Missing refresh token")
  | some t =>
    match jwtVerify t cfg.refreshSecret now with
    | .error _ => (s, .thrown "jwt verify failed")
    | .ok payload =>
      match sessionLookup s payload.jti with
      | none => (s, .unauthorized "Invalid session")
      | some session =>
        if session.expiresAt < now then (s, .unauthorized "Invalid session")
        else (s, .ok (signAccess cfg payload.sub now))

/-- Effect of `session.delete({ where: { refreshJti } })` on the table:
every row keyed by that jti is removed. -/
def revokeSessions (s : Store) (jti : Option Nat) : Store :=
  let kept := s.sessions.filter (fun ss => decide (¬ some ss.refreshJti = jti))
  { s with sessions := kept }

/-- Handler `logout`: missing token → 400; `jwt.verify` failure escapes as thrown;
otherwise `session.delete({ where: { refreshJti } }).catch(() => {})` —
the delete-by-key with any failure swallowed — then reply `{ ok: true }`. -/
def logout (cfg : AuthConfig) (s : Store) (now : Nat) (tok : Option JwtToken) :
    Store × HttpResult Bool :=
  match tok with
  | none => (s, .badRequest "Missing refresh token")
  | some t =>
    match jwtVerify t cfg.refreshSecret now with
    | .error _ => (s, .thrown "jwt verify failed")
    | .ok payload => (revokeSessions s payload.jti, .ok true)

/-- The redacted user object `login` replies with: exactly the seven
fields listed in the source — no `passwordHash` field exists in it. -/
structure UserSummary where
  id : Nat
  name : Option String
  email : Option String
  phone : Option String
  gender : Option Gender
  birthDate : Option Nat
  avatarUrl : Option String
deriving Repr, DecidableEq

def UserSummary.ofUser (u : UserRow) : UserSummary :=
  { id := u.id, name := u.name, email := u.email, phone := u.phone,
    gender := u.gender, birthDate := u.birthDate, avatarUrl := u.avatarUrl }

/-- Success body of `login` (the constant `test:"123"` field is dropped). -/
structure LoginBody where
  access : JwtToken
  refresh : JwtToken
  user : UserSummary
deriving Repr, DecidableEq

/-- Handler `login`: look up the User by unique email; absent row, absent
passwordHash, and bcrypt mismatch all reply the identical
401 "Invalid email or password"; on success create a Session and reply
tokens plus the redacted summary.  `compare` is `bcrypt.compare`. -/
def login (cfg : AuthConfig) (compare : String → String → Bool) (s : Store)
    (now jti : Nat) (email password : String) : Store × HttpResult LoginBody :=
  match s.users.find? (fun u => decide (u.email = some email)) with
  | none => (s, .unauthorized "Invalid email or password")
  | some user =>
    match user.passwordHash with
    | none => (s, .unauthorized "Invalid email or password")
    | some h =>
      if compare password h then
        let access := signAccess cfg user.id now
        let r := signRefresh cfg user.id jti now
        (sessionCreate s user.id r.jti r.exp,
         .ok { access := access, refresh := r.token, user := UserSummary.ofUser user })
      else (s, .unauthorized "Invalid email or password")

/-! ### completeProfile (auth.controller.ts; the `/api/user/profile/complete`
route registered in index.ts) -/

/-- One element of the parsed `locations` array. -/
structure LocationInput where
  label : String
  address : Option String
  lat : Option Int
  lng : Option Int
deriving Repr, DecidableEq

/-- The parsed `CompleteProfileSchema` body.  In the source the optional
spreads test JS truthiness (`gender && {gender}` etc.); after zod parsing
`gender` is a non-empty enum member, `birthDate` a `Date` object (always
truthy in JS), and `avatarUrl` a non-empty URL, so truthiness coincides
with presence, i.e. with `Option.isSome` here. -/
structure CompleteProfileInput where
  name : String
  gender : Option Gender
  birthDate : Option Nat
  avatarUrl : Option String
  familyName : String
  roleInFamily : FamilyRole
  locations : Option (List LocationInput)
deriving Repr, DecidableEq

/-- The `data` object of the `tx.user.update` call: `name` always set;
gender/birthDate/avatarUrl written only when supplied, otherwise the
stored value is left as it was; no other column appears in `data`. -/
def applyProfilePatch (u : UserRow) (inp : CompleteProfileInput) : UserRow :=
  { u with
    name := some inp.name
    gender := match inp.gender with | some g => some g | none => u.gender
    birthDate := match inp.birthDate with | some d => some d | none => u.birthDate
    avatarUrl := match inp.avatarUrl with | some a => some a | none => u.avatarUrl }

/-- The `tx.user.update({ where: { id: userId }, data: ... })` call: fails with
Prisma's record-not-found error when no User row has that id. -/
def userUpdateProfile (s : Store) (userId : Nat) (inp : CompleteProfileInput) :
    Except StoreError (Store × UserRow) :=
  match s.users.find? (fun u => decide (u.id = userId)) with
  | none => .error .recordNotFound
  | some u =>
    let u1 := applyProfilePatch u inp
    .ok ({ s with users := s.users.map (fun v => if v.id = userId then u1 else v) }, u1)

/-- The `tx.family.create({ data: { name, ownerId } })` call.  Modelled from the
spec: the store enforces referential integrity, so the create fails when
the owner does not exist; §9 records that no uniqueness constraint on the
family name exists, so none is imposed here. -/
def familyCreate (s : Store) (freshId : Nat) (fname : String) (ownerId : Nat) :
    Except StoreError (Store × FamilyRow) :=
  if s.users.any (fun u => decide (u.id = ownerId)) then
    let f : FamilyRow := { id := freshId, name := fname, ownerId := ownerId }
    .ok ({ s with families := s.families ++ [f] }, f)
  else .error .fkViolation

/-- The `tx.familyMember.create({ data: { userId, familyId, role } })` call.
Modelled from the spec: referential integrity on both foreign keys. -/
def familyMemberCreate (s : Store) (userId familyId : Nat) (role : FamilyRole) :
    Except StoreError Store :=
  if s.users.any (fun u => decide (u.id = userId)) then
    if s.families.any (fun f => decide (f.id = familyId)) then
      .ok { s with members := s.members ++ [⟨userId, familyId, role⟩] }
    else .error .fkViolation
  else .error .fkViolation

/-- The row `location.createMany` builds from one list element. -/
def locationRow (familyId : Nat) (l : LocationInput) : LocationRow :=
  { familyId := familyId, label := l.label, address := l.address,
    lat := l.lat, lng := l.lng }

/-- The `tx.location.createMany` call over the supplied locations.  Modelled from
the spec: referential integrity on the family foreign key. -/
def locationCreateMany (s : Store) (familyId : Nat) (locs : List LocationInput) :
    Except StoreError Store :=
  if s.families.any (fun f => decide (f.id = familyId)) then
    .ok { s with locations := s.locations ++ locs.map (locationRow familyId) }
  else .error .fkViolation

/-- The location rows a successful `completeProfile` adds: the supplied
ones when `locations` is a non-empty array (`if (locations?.length)`),
nothing otherwise. -/
def locationRows (familyId : Nat) (inp : CompleteProfileInput) : List LocationRow :=
  match inp.locations with
  | some locs =>
    if locs.length ≠ 0 then locs.map (locationRow familyId) else []
  | none => []

/-- Handler `completeProfile`: the four steps run inside `prisma.$transaction`;
the surrounding try/catch replies 500 "Unable to complete registration" on
any error.  Modelled from the spec (§5(d), §6): the store's transaction
primitive commits all writes together or rolls every one back, which is
why the error branch returns the original store unchanged. -/
def completeProfile (s : Store) (userId freshFamilyId : Nat)
    (inp : CompleteProfileInput) : Store × HttpResult (UserRow × FamilyRow) :=
  let txBody : Except StoreError (Store × (UserRow × FamilyRow)) :=
    match userUpdateProfile s userId inp with
    | .error e => .error e
    | .ok (s1, user) =>
      match familyCreate s1 freshFamilyId inp.familyName userId with
      | .error e => .error e
      | .ok (s2, family) =>
        match familyMemberCreate s2 userId family.id inp.roleInFamily with
        | .error e => .error e
        | .ok s3 =>
          match (match inp.locations with
            | some locs =>
              if locs.length ≠ 0 then locationCreateMany s3 family.id locs
              else .ok s3
            | none => .ok s3) with
          | .error e => .error e
          | .ok s4 => .ok (s4, (user, family))
  match txBody with
  | .ok (s4, uf) => (s4, .ok uf)
  | .error _ => (s, .internalServerError "Unable to complete registration")

/-! ### Concrete instances used in counterexamples and witnesses -/

/-- C1 counterexample store: a single challenge already consumed at time 5. -/
def c1Store : Store :=
  { otps := [{ id := 1, target := "a@b.com", code := "123456", purpose := "signup",
               expiresAt := 100, consumedAt := some 5, createdAt := 0 }],
    users := [], sessions := [], families := [], members := [], locations := [] }

/-- The store `otpUpdateConsumed` actually produces from `c1Store`. -/
def c1StoreAfter : Store :=
  { otps := [{ id := 1, target := "a@b.com", code := "123456", purpose := "signup",
               expiresAt := 100, consumedAt := some 10, createdAt := 0 }],
    users := [], sessions := [], families := [], members := [], locations := [] }

/-- Witness store for the amended C1: a live challenge (id 1) next to an
already-consumed one (id 2). -/
def c1wStore : Store :=
  { otps := [{ id := 1, target := "a@b.com", code := "123456", purpose := "signup",
               expiresAt := 601000, consumedAt := none, createdAt := 1000 },
             { id := 2, target := "a@b.com", code := "999999", purpose := "signup",
               expiresAt := 601000, consumedAt := some 5, createdAt := 900 }],
    users := [], sessions := [], families := [], members := [], locations := [] }

/-- The consumed row of `c1wStore`. -/
def c1wRow : OtpRow :=
  { id := 2, target := "a@b.com", code := "999999", purpose := "signup",
    expiresAt := 601000, consumedAt := some 5, createdAt := 900 }

/-- The empty store. -/
def emptyStore : Store :=
  { otps := [], users := [], sessions := [], families := [], members := [],
    locations := [] }

/-- A fixed config with distinct secrets, for witnesses. -/
def wCfg : AuthConfig := { accessSecret := "acc", refreshSecret := "ref" }

/-- A forged refresh token: its signature does not verify under `wCfg`. -/
def c3Tok : JwtToken :=
  { sub := 5, jti := some 77, expMs := 999999, secret := "forged" }

/-- C4 store: a live challenge for "a@b.com", no users yet. -/
def c4Store : Store :=
  { otps := [freshOtp 1 1000 10 "123456" "a@b.com" "signup"],
    users := [], sessions := [], families := [], members := [], locations := [] }

/-- The user a concurrent identical signup creates for the same target. -/
def c4Racer : UserRow :=
  { id := 99, email := some "a@b.com", phone := none, passwordHash := none,
    name := none, gender := none, birthDate := none, avatarUrl := none,
    countryCode := none }

/-- Interference committed between verifyOtp's user lookup and its create:
the concurrent request's row appears in the store. -/
def c4Interfere : Store → Store :=
  fun s => { s with users := s.users ++ [c4Racer] }

/-- Store `c4Store` after the consume write of the challenge (id 1) at time 2000. -/
def c4S1 : Store :=
  { c4Store with otps := c4Store.otps.map (consumePatch 1 2000) }

/-- C7 witness store: one live session for user 5 with jti 77. -/
def c7Store : Store :=
  { emptyStore with sessions := [⟨5, 77, 2592001000⟩] }

/-- A password-signup account: stored with a non-null passwordHash. -/
def c8User : UserRow :=
  { id := 3, email := some "x@y.com", phone := none,
    passwordHash := some "HASH", name := some "Nora", gender := none,
    birthDate := none, avatarUrl := none, countryCode := none }

/-- C8 witness store: exactly the one password account. -/
def c8Store : Store := { emptyStore with users := [c8User] }

/-- A bcrypt-compare stand-in: accepts only the right (password, hash)
pair. -/
def c8Compare : String → String → Bool :=
  fun p h => decide (p = "secret1" ∧ h = "HASH")

/-- C9 witness input: name supplied, gender/birthDate/avatarUrl omitted. -/
def c9Inp : CompleteProfileInput :=
  { name := "Aisha", gender := none, birthDate := none, avatarUrl := none,
    familyName := "My Family", roleInFamily := .OWNER, locations := none }

/-- C10 witness store: a live challenge for "x@y.com" and the stored
password account `c8User` with the same email. -/
def c10Store : Store :=
  { otps := [freshOtp 1 1000 10 "123456" "x@y.com" "signup"],
    users := [c8User], sessions := [], families := [], members := [],
    locations := [] }

/-- Store `c10Store` after the consume write of challenge 1 at time 2000. -/
def c10S1 : Store :=
  { c10Store with otps := c10Store.otps.map (consumePatch 1 2000) }

/-! ### Helper lemmas -/

theorem latestCreated_mem {l : List OtpRow} {o : OtpRow}
    (h : latestCreated l = some o) : o ∈ l := by
  induction l with
  | nil => simp [latestCreated] at h
  | cons a rest ih =>
    rw [latestCreated] at h
    split at h
    next =>
      injection h with h
      subst h
      exact List.mem_cons_self a rest
    next b heq =>
      split at h
      next =>
        injection h with h
        subst h
        exact List.mem_cons_of_mem a (ih heq)
      next =>
        injection h with h
        subst h
        exact List.mem_cons_self a rest

theorem findFirstOtp_spec {s : Store} {target code : String} {now : Nat} {o : OtpRow}
    (h : findFirstOtp s target code now = some o) :
    o ∈ s.otps ∧ o.target = target ∧ o.code = code ∧
      o.consumedAt = none ∧ now < o.expiresAt := by
  have hm := latestCreated_mem h
  rw [List.mem_filter] at hm
  refine ⟨hm.1, ?_⟩
  have h2 := hm.2
  rw [otpMatches, decide_eq_true_eq] at h2
  exact h2

theorem filter_otpMatches_nil {l : List OtpRow} {target code : String} {now : Nat}
    (h : ∀ o ∈ l, ¬(o.target = target ∧ o.code = code ∧ o.consumedAt = none ∧
      now < o.expiresAt)) :
    l.filter (otpMatches target code now) = [] := by
  rw [List.filter_eq_nil_iff]
  intro a ha
  rw [otpMatches]
  simp only [decide_eq_true_eq]
  exact h a ha

/-- In the sequential flow the user-create of `verifyOtp` cannot hit a
uniqueness conflict: the lookup by target just found nothing. -/
theorem no_conflict_of_find_none {s : Store} {target : String}
    (hnone : findUserByTarget s target = none) :
    s.users.any (conflictsWith (emailOfTarget target) (phoneOfTarget target)) = false := by
  rw [findUserByTarget, List.find?_eq_none] at hnone
  rw [← Bool.not_eq_true, List.any_eq_true]
  rintro ⟨u, hu, hcf⟩
  have hn := hnone u hu
  simp only [decide_eq_true_eq] at hn
  rw [conflictsWith, decide_eq_true_eq] at hcf
  by_cases hat : targetIsEmail target = true
  · simp only [emailOfTarget, phoneOfTarget, if_pos hat] at hcf
    rcases hcf with ⟨-, he⟩ | ⟨hne, -⟩
    · exact hn (Or.inl he)
    · exact hne rfl
  · simp only [emailOfTarget, phoneOfTarget, if_neg hat] at hcf
    rcases hcf with ⟨hne, -⟩ | ⟨-, hp⟩
    · exact hne rfl
    · exact hn (Or.inr hp)

/-- When the lookup finds a live challenge, the sequential `verifyOtp`
succeeds, and the resulting otps table is the consume-patched one. -/
theorem verifyOtp_found_ok (cfg : AuthConfig) {s : Store} {now : Nat}
    (fid jti : Nat) {target code : String} (pname : Option String) {otp : OtpRow}
    (hf : findFirstOtp s target code now = some otp) :
    (verifyOtp cfg s now fid jti target code pname).2.isOk = true ∧
    (verifyOtp cfg s now fid jti target code pname).1.otps =
      s.otps.map (consumePatch otp.id now) := by
  obtain ⟨hmem, -, -, -, -⟩ := findFirstOtp_spec hf
  have hany : s.otps.any (fun x => decide (x.id = otp.id)) = true := by
    rw [List.any_eq_true]
    exact ⟨otp, hmem, by simp⟩
  rw [verifyOtp, verifyOtpWith, hf]
  simp only [otpUpdateConsumed, if_pos hany, id]
  cases hu : findUserByTarget
      { s with otps := s.otps.map (consumePatch otp.id now) } target with
  | some user => exact ⟨rfl, rfl⟩
  | none =>
    have hnc := no_conflict_of_find_none hu
    simp only [userCreate, hnc, Bool.false_eq_true, if_false, sessionCreate,
      HttpResult.isOk]
    exact ⟨trivial, trivial⟩

/-- If no live challenge matches, `verifyOtp` replies 400 and leaves the
store untouched. -/
theorem verifyOtp_nomatch (cfg : AuthConfig) {s : Store} {now : Nat}
    (fid jti : Nat) {target code : String} (pname : Option String)
    (h : findFirstOtp s target code now = none) :
    verifyOtp cfg s now fid jti target code pname =
      (s, .badRequest "Invalid or expired code") := by
  rw [verifyOtp, verifyOtpWith, h]

/-- After the freshly issued challenge is consumed, no challenge for the
same (target, code) is live, at any time, when the issued one was the only
match present at issue time. -/
theorem filter_consumed_issue_nil {l : List OtpRow} {fid t1 t now0 ttl : Nat}
    {target code purpose : String}
    (hfresh : ∀ o ∈ l, o.id ≠ fid)
    (hnomatch : ∀ o ∈ l, ¬(o.target = target ∧ o.code = code)) :
    ((l ++ [freshOtp fid now0 ttl code target purpose]).map
        (consumePatch fid t1)).filter (otpMatches target code t) = [] := by
  apply filter_otpMatches_nil
  intro o ho
  rw [List.map_append, List.mem_append] at ho
  rcases ho with ho | ho
  · rw [List.mem_map] at ho
    obtain ⟨a, ha, rfl⟩ := ho
    rw [consumePatch, if_neg (hfresh a ha)]
    rintro ⟨h1, h2, -, -⟩
    exact hnomatch a ha ⟨h1, h2⟩
  · simp only [List.map_cons, List.map_nil, List.mem_singleton] at ho
    subst ho
    rw [consumePatch, freshOtp]
    simp only [if_pos rfl]
    rintro ⟨-, -, hnone, -⟩
    exact Option.noConfusion hnone

/-- A challenge verified at or after its expiry never matches, so the filter
is empty when nothing else matched either. -/
theorem filter_expired_issue_nil {l : List OtpRow} {fid now0 ttl t2 : Nat}
    {target code purpose : String}
    (hnomatch : ∀ o ∈ l, ¬(o.target = target ∧ o.code = code))
    (ht2 : now0 + ttl * 60 * 1000 ≤ t2) :
    (l ++ [freshOtp fid now0 ttl code target purpose]).filter
      (otpMatches target code t2) = [] := by
  apply filter_otpMatches_nil
  intro o ho
  rw [List.mem_append] at ho
  rcases ho with ho | ho
  · rintro ⟨h1, h2, -, -⟩
    exact hnomatch o ho ⟨h1, h2⟩
  · rw [List.mem_singleton] at ho
    subst ho
    rw [freshOtp]
    rintro ⟨-, -, -, hlt⟩
    exact absurd hlt (Nat.not_lt.mpr ht2)

/-- Within its TTL, the freshly issued challenge is the unique live match,
so the ordered lookup returns exactly it. -/
theorem findFirst_fresh {l : List OtpRow} {fid now0 ttl t1 : Nat}
    {target code purpose : String}
    (hnomatch : ∀ o ∈ l, ¬(o.target = target ∧ o.code = code))
    (ht1 : t1 < now0 + ttl * 60 * 1000) :
    latestCreated ((l ++ [freshOtp fid now0 ttl code target purpose]).filter
      (otpMatches target code t1)) =
    some (freshOtp fid now0 ttl code target purpose) := by
  rw [List.filter_append]
  have hnil : l.filter (otpMatches target code t1) = [] := by
    apply filter_otpMatches_nil
    intro o ho
    rintro ⟨h1, h2, -, -⟩
    exact hnomatch o ho ⟨h1, h2⟩
  rw [hnil]
  have hmatch : otpMatches target code t1
      (freshOtp fid now0 ttl code target purpose) = true := by
    rw [otpMatches, freshOtp, decide_eq_true_eq]
    exact ⟨rfl, rfl, rfl, ht1⟩
  rw [List.filter_cons, if_pos hmatch]
  rfl

/-! ### C1 — the OTP consume write -/

/-- C1 is false as stated: the consume write of `verifyOtp` is keyed only by
id — on a challenge whose `consumedAt` is already `some 5` at write time the
write does not fail; it succeeds and overwrites `consumedAt` with the new
timestamp. -/
theorem otpConsume_overwrites_consumedAt :
    otpUpdateConsumed c1Store 1 10 = .ok c1StoreAfter ∧
    c1Store.otps.map OtpRow.consumedAt = [some 5] ∧
    c1StoreAfter.otps.map OtpRow.consumedAt = [some 10] :=
  ⟨rfl, rfl, rfl⟩

/-- C1 (amended): the consume step is an unconditional update keyed by id, so
single use is enforced only by the preceding `findFirst` filter
(`consumedAt: null`), not by the write itself; consequently, under sequential
execution `verifyOtp` never changes a challenge whose `consumedAt` is already
non-null: every such row survives the call untouched (given the store's ids
are distinct). -/
theorem verifyOtp_preserves_nonnull_consumedAt
    (cfg : AuthConfig) (s : Store) (now fid jti : Nat) (target code : String)
    (pname : Option String)
    (hids : (s.otps.map OtpRow.id).Nodup)
    (o : OtpRow) (ho : o ∈ s.otps) (hc : o.consumedAt ≠ none) :
    o ∈ (verifyOtp cfg s now fid jti target code pname).1.otps := by
  rw [verifyOtp, verifyOtpWith]
  cases hf : findFirstOtp s target code now with
  | none => simpa using ho
  | some otp =>
    obtain ⟨hmem, -, -, hnull, -⟩ := findFirstOtp_spec hf
    have hne : ¬ o.id = otp.id := by
      intro he
      exact hc ((List.inj_on_of_nodup_map hids ho hmem he) ▸ hnull)
    have hany : s.otps.any (fun x => decide (x.id = otp.id)) = true := by
      rw [List.any_eq_true]
      exact ⟨otp, hmem, by simp⟩
    have hfix : consumePatch otp.id now o = o := by
      simp only [consumePatch, if_neg hne]
    have hself : o ∈ s.otps.map (consumePatch otp.id now) :=
      hfix ▸ List.mem_map_of_mem (consumePatch otp.id now) ho
    simp only [otpUpdateConsumed, if_pos hany]
    simp only [id]
    cases hu : findUserByTarget
        { s with otps := s.otps.map (consumePatch otp.id now) } target with
    | some user => simpa [sessionCreate] using hself
    | none =>
      rw [userCreate]
      by_cases hconf : ({ s with otps := s.otps.map (consumePatch otp.id now) } :
            Store).users.any (conflictsWith (emailOfTarget target) (phoneOfTarget target))
      · rw [if_pos hconf]
        simpa using hself
      · rw [if_neg hconf]
        simpa [sessionCreate] using hself

theorem verifyOtp_preserves_nonnull_consumedAt_witness :
    c1wRow ∈ (verifyOtp ⟨"acc", "ref"⟩ c1wStore 2000 7 9 "a@b.com" "123456"
      none).1.otps :=
  verifyOtp_preserves_nonnull_consumedAt ⟨"acc", "ref"⟩ c1wStore 2000 7 9
    "a@b.com" "123456" none (by decide) c1wRow (by decide) (by decide)

/-! ### C2 — issue then verify: success exactly once, failure after expiry -/

/-- C2: issue an OTP for `target` into a store holding no other challenge
for the same (target, code) and no row with the fresh id.  Verifying with
the correct code strictly before the expiry timestamp succeeds (returns a
User with access and refresh tokens); after that success, any further
verify with the same (target, code) — at any time, with any fresh ids —
replies 400 "Invalid or expired code"; verifying at or after the expiry
timestamp replies 400 "Invalid or expired code" although the challenge row
is still present in the store. -/
theorem issue_then_verify_once
    (cfg : AuthConfig) (s0 : Store) (now0 fid ttl t1 t2 uid jti : Nat)
    (code target purpose : String) (pname : Option String)
    (hfresh : ∀ o ∈ s0.otps, o.id ≠ fid)
    (hnomatch : ∀ o ∈ s0.otps, ¬(o.target = target ∧ o.code = code))
    (ht1 : t1 < now0 + ttl * 60 * 1000)
    (ht2 : now0 + ttl * 60 * 1000 ≤ t2) :
    (verifyOtp cfg (sendOtp s0 now0 fid code ttl target purpose).1 t1 uid jti
        target code pname).2.isOk = true ∧
    (∀ t u j p, (verifyOtp cfg (verifyOtp cfg (sendOtp s0 now0 fid code ttl
        target purpose).1 t1 uid jti target code pname).1 t u j target code
        p).2 = .badRequest "Invalid or expired code") ∧
    (verifyOtp cfg (sendOtp s0 now0 fid code ttl target purpose).1 t2 uid jti
        target code pname).2 = .badRequest "Invalid or expired code" ∧
    freshOtp fid now0 ttl code target purpose ∈
      (sendOtp s0 now0 fid code ttl target purpose).1.otps := by
  have hs1 : (sendOtp s0 now0 fid code ttl target purpose).1 =
      { s0 with otps := s0.otps ++ [freshOtp fid now0 ttl code target purpose] } :=
    rfl
  have hfind1 : findFirstOtp (sendOtp s0 now0 fid code ttl target purpose).1
      target code t1 = some (freshOtp fid now0 ttl code target purpose) := by
    rw [hs1, findFirstOtp]
    exact findFirst_fresh hnomatch ht1
  obtain ⟨hok, hotps⟩ := verifyOtp_found_ok cfg uid jti pname hfind1
  refine ⟨hok, ?_, ?_, ?_⟩
  · intro t u j p
    have hnone : findFirstOtp (verifyOtp cfg (sendOtp s0 now0 fid code ttl
        target purpose).1 t1 uid jti target code pname).1 target code t = none := by
      rw [findFirstOtp, hotps, hs1]
      have hid : (freshOtp fid now0 ttl code target purpose).id = fid := rfl
      rw [hid]
      rw [show ({ s0 with otps := s0.otps ++
          [freshOtp fid now0 ttl code target purpose] } : Store).otps =
          s0.otps ++ [freshOtp fid now0 ttl code target purpose] from rfl]
      rw [filter_consumed_issue_nil hfresh hnomatch]
      rfl
    rw [verifyOtp_nomatch cfg u j p hnone]
  · have hnone2 : findFirstOtp (sendOtp s0 now0 fid code ttl target purpose).1
        target code t2 = none := by
      rw [hs1, findFirstOtp]
      rw [show ({ s0 with otps := s0.otps ++
          [freshOtp fid now0 ttl code target purpose] } : Store).otps =
          s0.otps ++ [freshOtp fid now0 ttl code target purpose] from rfl]
      rw [filter_expired_issue_nil hnomatch ht2]
      rfl
    rw [verifyOtp_nomatch cfg uid jti pname hnone2]
  · rw [hs1]
    exact List.mem_append_right _ (List.mem_singleton.mpr rfl)

theorem issue_then_verify_once_witness :
    (verifyOtp wCfg (sendOtp emptyStore 1000 1 "123456" 10 "a@b.com"
        "signup").1 2000 7 9 "a@b.com" "123456" none).2.isOk = true ∧
    (verifyOtp wCfg (verifyOtp wCfg (sendOtp emptyStore 1000 1 "123456" 10
        "a@b.com" "signup").1 2000 7 9 "a@b.com" "123456" none).1 3000 8 10
        "a@b.com" "123456" none).2 = .badRequest "Invalid or expired code" ∧
    (verifyOtp wCfg (sendOtp emptyStore 1000 1 "123456" 10 "a@b.com"
        "signup").1 601000 7 9 "a@b.com" "123456" none).2 =
      .badRequest "Invalid or expired code" := by
  have h := issue_then_verify_once wCfg emptyStore 1000 1 10 2000 601000 7 9
    "123456" "a@b.com" "signup" none (by decide) (by decide) (by decide)
    (by decide)
  exact ⟨h.1, h.2.1 3000 8 10 none, h.2.2.1⟩

/-! ### C3 — refresh: failure signals and success shape -/

/-- C3 is false as stated: when refresh-token verification fails (forged
signature here) the handler does not produce the `InvalidSession`
unauthorized reply — the `jwt.verify` call sits outside any try/catch, so
the failure escapes the handler as a thrown error (Fastify's generic 500),
which is a different reply from `unauthorized "Invalid session"`. -/
theorem refresh_badSignature_not_invalidSession :
    (refreshAccess wCfg emptyStore 0 (some c3Tok)).2 = .thrown "jwt verify failed" ∧
    (refreshAccess wCfg emptyStore 0 (some c3Tok)).2 ≠
      .unauthorized "Invalid session" :=
  ⟨rfl, by decide⟩

/-- C3 (amended): `refreshAccess` never mutates the store; it replies
`unauthorized "Invalid session"` exactly when the refresh token verifies
but the Session lookup finds no row for the embedded jti or the stored
expiry has already passed; a failed signature/expiry verification instead
escapes as a thrown error (generic 500); and on success the reply is a new
access token whose subject equals the refresh token's subject. -/
theorem refreshAccess_spec (cfg : AuthConfig) (s : Store) (now : Nat)
    (t : JwtToken) :
    (refreshAccess cfg s now (some t)).1 = s ∧
    ((refreshAccess cfg s now (some t)).2 = .unauthorized "Invalid session" ↔
      (jwtVerify t cfg.refreshSecret now = .ok t ∧
        ∀ ss, sessionLookup s t.jti = some ss → ss.expiresAt < now)) ∧
    (∀ e, jwtVerify t cfg.refreshSecret now = .error e →
      (refreshAccess cfg s now (some t)).2 = .thrown "jwt verify failed") ∧
    (∀ a, (refreshAccess cfg s now (some t)).2 = .ok a →
      a = signAccess cfg t.sub now) := by
  have hver : jwtVerify t cfg.refreshSecret now = .ok t ∨
      ∃ e, jwtVerify t cfg.refreshSecret now = .error e := by
    rw [jwtVerify]
    by_cases h1 : t.secret ≠ cfg.refreshSecret
    · rw [if_pos h1]
      exact Or.inr ⟨.badSignature, rfl⟩
    · rw [if_neg h1]
      by_cases h2 : t.expMs ≤ now
      · rw [if_pos h2]
        exact Or.inr ⟨.expired, rfl⟩
      · rw [if_neg h2]
        exact Or.inl rfl
  rcases hver with hv | ⟨e0, hv⟩
  · rw [refreshAccess, hv]
    dsimp only
    cases hl : sessionLookup s t.jti with
    | none =>
      dsimp only
      refine ⟨rfl, ?_, ?_, ?_⟩
      · constructor
        · intro _
          refine ⟨rfl, fun ss hss => ?_⟩
          exact Option.noConfusion hss
        · intro _
          rfl
      · intro e he
        exact Except.noConfusion he
      · intro a ha
        exact HttpResult.noConfusion ha
    | some ss =>
      dsimp only
      by_cases hlt : ss.expiresAt < now
      · rw [if_pos hlt]
        refine ⟨rfl, ?_, ?_, ?_⟩
        · constructor
          · intro _
            refine ⟨rfl, fun ss2 hss2 => ?_⟩
            injection hss2 with hss2
            exact hss2 ▸ hlt
          · intro _
            rfl
        · intro e he
          exact Except.noConfusion he
        · intro a ha
          exact HttpResult.noConfusion ha
      · rw [if_neg hlt]
        refine ⟨rfl, ?_, ?_, ?_⟩
        · constructor
          · intro hbad
            exact HttpResult.noConfusion hbad
          · rintro ⟨-, hall⟩
            exact absurd (hall ss rfl) hlt
        · intro e he
          exact Except.noConfusion he
        · intro a ha
          injection ha with ha
          exact ha.symm
  · rw [refreshAccess, hv]
    dsimp only
    refine ⟨rfl, ?_, fun e _ => rfl, fun a ha => HttpResult.noConfusion ha⟩
    constructor
    · intro hbad
      exact HttpResult.noConfusion hbad
    · rintro ⟨hok, -⟩
      exact Except.noConfusion hok

theorem refreshAccess_spec_witness :
    (refreshAccess wCfg emptyStore 0 (some (signRefresh wCfg 5 77 0).token)).2 =
      .unauthorized "Invalid session" := by
  have h := refreshAccess_spec wCfg emptyStore 0 (signRefresh wCfg 5 77 0).token
  refine h.2.1.mpr ⟨rfl, ?_⟩
  intro ss hss
  simp [sessionLookup, emptyStore] at hss

/-! ### C4 — the duplicate-signup race in find-or-create -/

/-- C4 is false as stated: when a concurrent identical signup commits
between verifyOtp's user lookup and its create (modelled by
`c4Interfere`), the create's uniqueness conflict is not caught — the call
does not re-fetch and succeed; the error escapes the handler. -/
theorem verifyOtp_conflict_not_refetched :
    (verifyOtpWith wCfg c4Store 2000 7 9 "a@b.com" "123456" none
        c4Interfere).2 = .thrown "Unique constraint failed" ∧
    (verifyOtpWith wCfg c4Store 2000 7 9 "a@b.com" "123456" none
        c4Interfere).2.isOk = false :=
  ⟨rfl, rfl⟩

/-- C4 (amended): verifyOtp's find-or-create has no conflict handler —
whenever the user lookup finds nothing and the create then fails with the
store's uniqueness conflict (a concurrent identical signup, modelled by
`interfere`, committed in between), verifyOtp surfaces the failure to the
caller as a thrown error instead of re-fetching the now-existing row. -/
theorem verifyOtp_conflict_surfaces
    (cfg : AuthConfig) (s s1 : Store) (now fid jti : Nat)
    (target code : String) (pname : Option String)
    (interfere : Store → Store) (otp : OtpRow) (e : StoreError)
    (h1 : findFirstOtp s target code now = some otp)
    (h2 : otpUpdateConsumed s otp.id now = .ok s1)
    (h3 : findUserByTarget s1 target = none)
    (h4 : userCreate (interfere s1) fid (emailOfTarget target)
        (phoneOfTarget target) pname = .error e) :
    verifyOtpWith cfg s now fid jti target code pname interfere =
      (interfere s1, .thrown "Unique constraint failed") := by
  rw [verifyOtpWith, h1]
  dsimp only
  rw [h2]
  dsimp only
  rw [h3]
  dsimp only
  rw [h4]

theorem verifyOtp_conflict_surfaces_witness :
    verifyOtpWith wCfg c4Store 2000 7 9 "a@b.com" "123456" none c4Interfere =
      (c4Interfere c4S1, .thrown "Unique constraint failed") :=
  verifyOtp_conflict_surfaces wCfg c4Store c4S1 2000 7 9 "a@b.com" "123456"
    none c4Interfere (freshOtp 1 1000 10 "123456" "a@b.com" "signup")
    .uniqueViolation rfl rfl rfl rfl

/-! ### C5 — token round trip and secret separation -/

/-- C5: verifying a fresh access token before its expiry returns exactly
the signed claims (same subject); and when the two signing secrets are
distinct, a refresh-signed token always fails `verifyAccess` with a
signature error, and an access-signed token always fails verification
against the refresh secret, at any time. -/
theorem sign_verify_roundtrip_and_separation
    (cfg : AuthConfig) (sub jti now1 now2 t3 t4 : Nat)
    (hsecrets : cfg.accessSecret ≠ cfg.refreshSecret)
    (hfresh : now2 < now1 + accessTtlMs) :
    verifyAccess cfg (signAccess cfg sub now1) now2 =
      .ok (signAccess cfg sub now1) ∧
    (signAccess cfg sub now1).sub = sub ∧
    verifyAccess cfg (signRefresh cfg sub jti now1).token t3 =
      .error .badSignature ∧
    jwtVerify (signAccess cfg sub now1) cfg.refreshSecret t4 =
      .error .badSignature := by
  refine ⟨?_, rfl, ?_, ?_⟩
  · rw [verifyAccess, jwtVerify]
    have h1 : ¬ (signAccess cfg sub now1).secret ≠ cfg.accessSecret :=
      fun h => h rfl
    rw [if_neg h1]
    have h2 : ¬ (signAccess cfg sub now1).expMs ≤ now2 :=
      Nat.not_le.mpr hfresh
    rw [if_neg h2]
  · rw [verifyAccess, jwtVerify]
    have h1 : (signRefresh cfg sub jti now1).token.secret ≠ cfg.accessSecret :=
      fun h => hsecrets h.symm
    rw [if_pos h1]
  · rw [jwtVerify]
    have h1 : (signAccess cfg sub now1).secret ≠ cfg.refreshSecret := hsecrets
    rw [if_pos h1]

theorem sign_verify_roundtrip_and_separation_witness :
    verifyAccess wCfg (signAccess wCfg 5 1000) 2000 =
      .ok (signAccess wCfg 5 1000) ∧
    verifyAccess wCfg (signRefresh wCfg 5 77 1000).token 0 =
      .error .badSignature := by
  have h := sign_verify_roundtrip_and_separation wCfg 5 77 1000 2000 0 0
    (by decide) (by decide)
  exact ⟨h.1, h.2.2.1⟩

/-! ### C6 — completeProfile is all-or-nothing -/

theorem userUpdateProfile_ok {s : Store} {userId : Nat} {u : UserRow}
    (inp : CompleteProfileInput)
    (hfind : s.users.find? (fun v => decide (v.id = userId)) = some u) :
    userUpdateProfile s userId inp =
      .ok ({ s with users := s.users.map (fun v =>
              if v.id = userId then applyProfilePatch u inp else v) },
           applyProfilePatch u inp) := by
  rw [userUpdateProfile, hfind]

theorem familyCreate_ok {s : Store} {ownerId : Nat} (ffid : Nat) (fname : String)
    (h : s.users.any (fun u => decide (u.id = ownerId)) = true) :
    familyCreate s ffid fname ownerId =
      .ok ({ s with families := s.families ++
              [{ id := ffid, name := fname, ownerId := ownerId }] },
           { id := ffid, name := fname, ownerId := ownerId }) := by
  rw [familyCreate, if_pos h]

theorem familyMemberCreate_ok {s : Store} {userId familyId : Nat}
    (role : FamilyRole)
    (h1 : s.users.any (fun u => decide (u.id = userId)) = true)
    (h2 : s.families.any (fun f => decide (f.id = familyId)) = true) :
    familyMemberCreate s userId familyId role =
      .ok { s with members := s.members ++
              [{ userId := userId, familyId := familyId, role := role }] } := by
  rw [familyMemberCreate, if_pos h1, if_pos h2]

theorem locationCreateMany_ok {s : Store} {familyId : Nat}
    (locs : List LocationInput)
    (h : s.families.any (fun f => decide (f.id = familyId)) = true) :
    locationCreateMany s familyId locs =
      .ok { s with locations := s.locations ++ locs.map (locationRow familyId) } := by
  rw [locationCreateMany, if_pos h]

/-- C6: every invocation of `completeProfile` either succeeds, committing
exactly the four effects together — the user-profile patch, one new Family
row owned by the user, one Membership row binding the user to it, and the
supplied Location rows — or fails as a whole, replying
500 "Unable to complete registration" and leaving the store exactly as it
was (profile fields unchanged, zero Family/Membership/Location rows). -/
theorem completeProfile_atomic (s : Store) (userId ffid : Nat)
    (inp : CompleteProfileInput) :
    (∃ u, s.users.find? (fun v => decide (v.id = userId)) = some u ∧
      completeProfile s userId ffid inp =
        ({ s with
            users := s.users.map (fun v =>
              if v.id = userId then applyProfilePatch u inp else v)
            families := s.families ++
              [{ id := ffid, name := inp.familyName, ownerId := userId }]
            members := s.members ++
              [{ userId := userId, familyId := ffid, role := inp.roleInFamily }]
            locations := s.locations ++ locationRows ffid inp },
         .ok (applyProfilePatch u inp,
              { id := ffid, name := inp.familyName, ownerId := userId }))) ∨
    completeProfile s userId ffid inp =
      (s, .internalServerError "Unable to complete registration") := by
  cases hfind : s.users.find? (fun v => decide (v.id = userId)) with
  | none =>
    refine Or.inr ?_
    rw [completeProfile]
    have h1 : userUpdateProfile s userId inp = .error .recordNotFound := by
      rw [userUpdateProfile, hfind]
    rw [h1]
  | some u =>
    have humem : u ∈ s.users := List.mem_of_find?_eq_some hfind
    have huid : u.id = userId := by
      have hp := List.find?_some hfind
      rwa [decide_eq_true_eq] at hp
    have hpid : (applyProfilePatch u inp).id = userId := huid
    refine Or.inl ⟨u, rfl, ?_⟩
    have hany1 : (s.users.map (fun v =>
        if v.id = userId then applyProfilePatch u inp else v)).any
        (fun x => decide (x.id = userId)) = true := by
      rw [List.any_eq_true]
      refine ⟨applyProfilePatch u inp, ?_, by rw [hpid]; simp⟩
      have hmm := List.mem_map_of_mem (fun v =>
        if v.id = userId then applyProfilePatch u inp else v) humem
      simpa [huid] using hmm
    have hanyf : ((s.families ++
        [(⟨ffid, inp.familyName, userId⟩ : FamilyRow)]).any
        (fun f => decide (f.id = ffid))) = true := by
      rw [List.any_eq_true]
      exact ⟨⟨ffid, inp.familyName, userId⟩,
        List.mem_append_right _ (List.mem_singleton.mpr rfl), by simp⟩
    rw [completeProfile, userUpdateProfile_ok inp hfind]
    dsimp only
    rw [familyCreate_ok ffid inp.familyName hany1]
    dsimp only
    rw [familyMemberCreate_ok inp.roleInFamily hany1 hanyf]
    dsimp only
    cases hloc : inp.locations with
    | none =>
      dsimp only
      have hlr : locationRows ffid inp = [] := by
        rw [locationRows, hloc]
      rw [hlr, List.append_nil]
    | some locs =>
      dsimp only
      by_cases hlen : locs.length ≠ 0
      · rw [if_pos hlen, locationCreateMany_ok locs hanyf]
        have hlr : locationRows ffid inp = locs.map (locationRow ffid) := by
          rw [locationRows, hloc]
          dsimp only
          rw [if_pos hlen]
        rw [hlr]
      · rw [if_neg hlen]
        have hlr : locationRows ffid inp = [] := by
          rw [locationRows, hloc]
          dsimp only
          rw [if_neg hlen]
        rw [hlr, List.append_nil]

/-! ### C7 — logout is idempotent and revokes the session -/

/-- C7: after a successful `logout(refresh)`, `refreshAccess(refresh)`
replies `unauthorized "Invalid session"` — every Session row carrying the
token's jti is gone — and a second `logout` with the same token still
replies `{ ok: true }`: deleting a non-existent session is swallowed by
the `.catch(() => {})`, not an error. -/
theorem logout_revokes_and_idempotent
    (cfg : AuthConfig) (s : Store) (now1 now2 now3 : Nat) (t : JwtToken)
    (hv1 : jwtVerify t cfg.refreshSecret now1 = .ok t)
    (hv2 : jwtVerify t cfg.refreshSecret now2 = .ok t)
    (hv3 : jwtVerify t cfg.refreshSecret now3 = .ok t) :
    (logout cfg s now1 (some t)).2 = .ok true ∧
    (refreshAccess cfg (logout cfg s now1 (some t)).1 now2 (some t)).2 =
      .unauthorized "Invalid session" ∧
    (logout cfg (logout cfg s now1 (some t)).1 now3 (some t)).2 = .ok true := by
  have hl1 : logout cfg s now1 (some t) = (revokeSessions s t.jti, .ok true) := by
    rw [logout, hv1]
  refine ⟨?_, ?_, ?_⟩
  · rw [hl1]
  · rw [hl1]
    rw [refreshAccess, hv2]
    dsimp only
    have hnone : sessionLookup (revokeSessions s t.jti) t.jti = none := by
      rw [sessionLookup, revokeSessions, List.find?_eq_none]
      intro x hx
      rw [List.mem_filter] at hx
      have h2 := hx.2
      simp only [decide_eq_true_eq] at h2 ⊢
      exact h2
    rw [hnone]
  · rw [hl1]
    rw [logout, hv3]

theorem logout_revokes_and_idempotent_witness :
    (logout wCfg c7Store 2000
        (some (signRefresh wCfg 5 77 1000).token)).2 = .ok true ∧
    (refreshAccess wCfg (logout wCfg c7Store 2000
        (some (signRefresh wCfg 5 77 1000).token)).1 3000
        (some (signRefresh wCfg 5 77 1000).token)).2 =
      .unauthorized "Invalid session" := by
  have h := logout_revokes_and_idempotent wCfg c7Store 2000 3000 4000
    (signRefresh wCfg 5 77 1000).token rfl rfl rfl
  exact ⟨h.1, h.2.1⟩

/-! ### C8 — login failures are indistinguishable -/

/-- C8: every failing login — nonexistent email, an existing user without
a passwordHash (OTP-only account), or a wrong password — produces the
identical result: store untouched and the very same
`unauthorized "Invalid email or password"` reply, so the cases are
indistinguishable to the caller. -/
theorem login_failure_indistinguishable
    (cfg : AuthConfig) (compare : String → String → Bool) (s : Store)
    (now jti : Nat) (email password : String)
    (hfail : ∀ u, s.users.find? (fun v => decide (v.email = some email)) =
      some u → ∀ h, u.passwordHash = some h → compare password h = false) :
    login cfg compare s now jti email password =
      (s, .unauthorized "Invalid email or password") := by
  rw [login]
  cases hf : s.users.find? (fun v => decide (v.email = some email)) with
  | none => rfl
  | some u =>
    dsimp only
    cases hph : u.passwordHash with
    | none => rfl
    | some h =>
      dsimp only
      rw [hfail u hf h hph]
      simp only [Bool.false_eq_true, if_false]

theorem login_failure_indistinguishable_witness :
    login wCfg c8Compare c8Store 0 1 "nobody@y.com" "secret1" =
      (c8Store, .unauthorized "Invalid email or password") ∧
    login wCfg c8Compare c8Store 0 1 "x@y.com" "wrongpw" =
      (c8Store, .unauthorized "Invalid email or password") := by
  constructor
  · refine login_failure_indistinguishable wCfg c8Compare c8Store 0 1
      "nobody@y.com" "secret1" ?_
    intro u hu
    exact Option.noConfusion hu
  · refine login_failure_indistinguishable wCfg c8Compare c8Store 0 1
      "x@y.com" "wrongpw" ?_
    intro u hu h hh
    injection hu with hu2
    subst hu2
    injection hh with hh2
    subst hh2
    rfl

/-! ### C9 — the profile patch: omitted fields untouched, name always set -/

/-- C9: in completeProfile's user update, `name` is always written with
the supplied value; each of gender/birthDate/avatarUrl is written only
when supplied and keeps the stored value when omitted; every other User
column (id, email, phone, passwordHash, countryCode) is untouched. -/
theorem applyProfilePatch_frame (u : UserRow) (inp : CompleteProfileInput) :
    (applyProfilePatch u inp).name = some inp.name ∧
    (inp.gender = none → (applyProfilePatch u inp).gender = u.gender) ∧
    (∀ g, inp.gender = some g → (applyProfilePatch u inp).gender = some g) ∧
    (inp.birthDate = none →
      (applyProfilePatch u inp).birthDate = u.birthDate) ∧
    (∀ d, inp.birthDate = some d →
      (applyProfilePatch u inp).birthDate = some d) ∧
    (inp.avatarUrl = none →
      (applyProfilePatch u inp).avatarUrl = u.avatarUrl) ∧
    (∀ a, inp.avatarUrl = some a →
      (applyProfilePatch u inp).avatarUrl = some a) ∧
    (applyProfilePatch u inp).id = u.id ∧
    (applyProfilePatch u inp).email = u.email ∧
    (applyProfilePatch u inp).phone = u.phone ∧
    (applyProfilePatch u inp).passwordHash = u.passwordHash ∧
    (applyProfilePatch u inp).countryCode = u.countryCode := by
  refine ⟨rfl, ?_, ?_, ?_, ?_, ?_, ?_, rfl, rfl, rfl, rfl, rfl⟩ <;>
    first
      | (intro h
         simp only [applyProfilePatch]
         rw [h])
      | (intro x h
         simp only [applyProfilePatch]
         rw [h])

theorem applyProfilePatch_frame_witness :
    (applyProfilePatch c8User c9Inp).gender = c8User.gender ∧
    (applyProfilePatch c8User c9Inp).name = some "Aisha" ∧
    (applyProfilePatch c8User c9Inp).passwordHash = c8User.passwordHash := by
  have h := applyProfilePatch_frame c8User c9Inp
  exact ⟨h.2.1 rfl, h.1, h.2.2.2.2.2.2.2.2.2.2.1⟩

/-! ### C10 — verifyOtp replies with the stored row; login redacts -/

/-- C10: on success `verifyOtp` replies with the User row exactly as
stored — including its `passwordHash` column when the account was created
by password signup — whereas the summary type `login` replies with is
computed by `UserSummary.ofUser`, which is blind to `passwordHash` (two
rows differing only there yield equal summaries) and carries no such
field. -/
theorem verifyOtp_returns_stored_user
    (cfg : AuthConfig) (s s1 : Store) (now fid jti : Nat)
    (target code : String) (pname : Option String) (otp : OtpRow) (u : UserRow)
    (h1 : findFirstOtp s target code now = some otp)
    (h2 : otpUpdateConsumed s otp.id now = .ok s1)
    (h3 : findUserByTarget s1 target = some u) :
    (verifyOtp cfg s now fid jti target code pname).2 =
      .ok { access := signAccess cfg u.id now,
            refresh := (signRefresh cfg u.id jti now).token, user := u } ∧
    (∀ v : UserRow, ∀ ph, UserSummary.ofUser { v with passwordHash := ph } =
      UserSummary.ofUser v) := by
  constructor
  · rw [verifyOtp, verifyOtpWith, h1]
    dsimp only
    rw [h2]
    dsimp only
    rw [h3]
  · intro v ph
    rfl

theorem verifyOtp_returns_stored_user_witness :
    (verifyOtp wCfg c10Store 2000 7 9 "x@y.com" "123456" none).2 =
      .ok { access := signAccess wCfg 3 2000,
            refresh := (signRefresh wCfg 3 9 2000).token, user := c8User } ∧
    c8User.passwordHash = some "HASH" := by
  have h := verifyOtp_returns_stored_user wCfg c10Store c10S1 2000 7 9
    "x@y.com" "123456" none (freshOtp 1 1000 10 "123456" "x@y.com" "signup")
    c8User rfl rfl rfl
  exact ⟨h.1, rfl⟩

end Kotah
